import Mathlib

/-!
Shallow embedding of src/server.js (WhatsApp HTTP relay service).

The embedding covers: the phone-number normalizer (validatePhoneNumber),
the session-lifecycle state machine (global flags isClientReady,
isInitializing, qrCodeData, reconnectAttempts updated by the client event
handlers, the catch branch of the initializer, and the restart route),
the retry wrapper safeClientOperation with its liveness probe, the
send-text route's error translation, and the route table with the 404
catch-all.  Asynchronous waits (setTimeout) are modelled by recording the
requested delays; the opaque whatsapp-web.js client is modelled at its
boundary (probe outcomes and action outcomes are inputs).
-/

/- ### Character-list utilities (model of JS string primitives) -/

/-- Does the second list start with the first (model of String.startsWith
on character lists)? -/
def charsStart : List Char → List Char → Bool
  | [], _ => true
  | _ :: _, [] => false
  | p :: ps, c :: cs => (p == c) && charsStart ps cs

/-- Does the second list contain the first as a contiguous run (model of
JS String.prototype.includes)? -/
def charsContains (need : List Char) : List Char → Bool
  | [] => charsStart need []
  | c :: rest => charsStart need (c :: rest) || charsContains need rest

/-- Does `l` end with `suf` (model of JS String.prototype.endsWith)? -/
def charsEnd (l suf : List Char) : Bool :=
  charsStart suf.reverse l.reverse

/-- Model of `s.includes(sub)` from JS. -/
def strIncludes (s sub : String) : Bool :=
  charsContains sub.data s.data

/- ### Phone-number normalizer (source lines 220-228) -/

/-- A character kept by the regex replace `[^\d+]` in validatePhoneNumber:
every digit and every plus sign survives. -/
def isPhoneChar (c : Char) : Bool := c.isDigit || c == '+'

/-- The messaging-domain suffix appended by validatePhoneNumber. -/
def cUsSuffix : List Char := "@c.us".data

/-- The `cleaned` local of validatePhoneNumber: the input with every
character other than digits and plus signs removed. -/
def cleanedOf (s : String) : List Char := s.data.filter isPhoneChar

/-- Source lines 220-228: strip via the regex, reject lengths outside
[10,15], then append the suffix unless already present. -/
def validatePhoneNumber (phoneNumber : String) : Option String :=
  if (cleanedOf phoneNumber).length < 10 ∨ (cleanedOf phoneNumber).length > 15 then
    none
  else if charsEnd (cleanedOf phoneNumber) cUsSuffix then
    some (String.mk (cleanedOf phoneNumber))
  else
    some (String.mk (cleanedOf phoneNumber ++ cUsSuffix))

/-- The stripping step as the claim words it: keep digits and only a
leading plus sign.  Stated only for comparison against the source's
validatePhoneNumber. -/
def stripSpecChars (l : List Char) : List Char :=
  match l with
  | '+' :: rest => '+' :: rest.filter Char.isDigit
  | _ => l.filter Char.isDigit

/-- The normalizer as the claim words it, built on stripSpecChars; used
to exhibit where the source differs from the claim. -/
def normalizeSpec (s : String) : Option String :=
  if (stripSpecChars s.data).length < 10 ∨ (stripSpecChars s.data).length > 15 then
    none
  else
    some (String.mk (stripSpecChars s.data ++ cUsSuffix))

/- ### Session-lifecycle state machine (source lines 16-22, 98-217) -/

/-- The four mutable globals of server.js that make up the session
state: isClientReady, isInitializing, qrCodeData, reconnectAttempts. -/
structure SessionState where
  isClientReady : Bool
  isInitializing : Bool
  qrCodeData : String
  reconnectAttempts : Nat
deriving DecidableEq, Repr

/-- Initial values of the globals (source lines 17-21). -/
def initialState : SessionState :=
  { isClientReady := false, isInitializing := false, qrCodeData := "", reconnectAttempts := 0 }

/-- MAX_RECONNECT_ATTEMPTS (source line 22). -/
def MAX_RECONNECT_ATTEMPTS : Nat := 5

/-- The state-changing occurrences in the lifecycle code: entry into the
initializer (its re-entrancy guard and flag set), the five client events,
the catch branch of the initializer, and a restart request whose destroy
step succeeds. -/
inductive Event where
  | startEntry
  | qr (code : String)
  | authenticated
  | authFailure
  | ready
  | disconnected
  | startCatch
  | restartOk
deriving DecidableEq, Repr

/-- One transition of the lifecycle state machine, returning the new
state and the delay of any setTimeout scheduled by that handler.
Transcribed from source lines 98-104 (entry guard), 146-151 (qr),
154-157 (authenticated), 160-164 (auth_failure), 167-173 (ready),
176-194 (disconnected with capped exponential backoff), 204-216 (catch
with fixed 10000 ms retry), 444-461 (restart reset and 2000 ms
reschedule). -/
def step (st : SessionState) : Event → SessionState × Option Nat
  | Event.startEntry =>
    if st.isInitializing then (st, none)
    else ({ st with isInitializing := true }, none)
  | Event.qr code =>
    ({ st with qrCodeData := code, isClientReady := false }, none)
  | Event.authenticated =>
    ({ st with reconnectAttempts := 0 }, none)
  | Event.authFailure =>
    ({ st with isClientReady := false, isInitializing := false }, none)
  | Event.ready =>
    ({ st with isClientReady := true, qrCodeData := "", isInitializing := false,
               reconnectAttempts := 0 }, none)
  | Event.disconnected =>
    if st.reconnectAttempts < MAX_RECONNECT_ATTEMPTS then
      ({ st with isClientReady := false, isInitializing := false,
                 reconnectAttempts := st.reconnectAttempts + 1 },
       some (min (5000 * 2 ^ (st.reconnectAttempts + 1 - 1)) 30000))
    else
      ({ st with isClientReady := false, isInitializing := false }, none)
  | Event.startCatch =>
    if st.reconnectAttempts < MAX_RECONNECT_ATTEMPTS then
      ({ st with isClientReady := false, isInitializing := false,
                 reconnectAttempts := st.reconnectAttempts + 1 },
       some 10000)
    else
      ({ st with isClientReady := false, isInitializing := false }, none)
  | Event.restartOk =>
    ({ isClientReady := false, isInitializing := false, qrCodeData := "",
       reconnectAttempts := 0 }, some 2000)

/-- The state component of a transition. -/
def stepState (st : SessionState) (e : Event) : SessionState := (step st e).1

/-- Run a sequence of lifecycle events, collecting every scheduled
setTimeout delay in order. -/
def runEvents : SessionState → List Event → SessionState × List Nat
  | st, [] => (st, [])
  | st, e :: es =>
    ((runEvents (step st e).1 es).1,
     (step st e).2.toList ++ (runEvents (step st e).1 es).2)

/-- States reachable from the initial state when every initializer entry
happens while isClientReady is false (the discipline of the scheduling
paths, which clear the flag before scheduling, absent an intervening
ready event). -/
inductive ReachGuarded : SessionState → Prop
  | init : ReachGuarded initialState
  | next (st : SessionState) (e : Event) : ReachGuarded st →
      (e = Event.startEntry → st.isClientReady = false) →
      ReachGuarded (stepState st e)

/- ### Restart route (source lines 444-470) -/

/-- Outcome of the restart route: HTTP status, globals after the
handler, and the delay of the scheduled re-initialization if any. -/
structure RestartOutcome where
  status : Nat
  state : SessionState
  scheduled : Option Nat
deriving DecidableEq, Repr

/-- POST /api/whatsapp/restart.  The destroy call sits inside the try
with no inner catch: when a client exists and destroy throws, control
jumps to the catch, which answers 500 without resetting the globals and
without scheduling; otherwise the globals are reset, a 2000 ms
re-initialization is scheduled, and the response is 200. -/
def restartHandler (st : SessionState) (clientExists destroyThrows : Bool) : RestartOutcome :=
  if clientExists && destroyThrows then
    { status := 500, state := st, scheduled := none }
  else
    { status := 200,
      state := { isClientReady := false, isInitializing := false, qrCodeData := "",
                 reconnectAttempts := 0 },
      scheduled := some 2000 }

/- ### Liveness probe and retry wrapper (source lines 53-95) -/

/-- isClientActuallyReady (source lines 53-72): false unless a client
exists and isClientReady holds, the puppeteer page is not closed,
getState does not throw, and the reported state is CONNECTED. -/
def isClientActuallyReady (clientExists ready pageClosed getStateThrows : Bool)
    (stateStr : String) : Bool :=
  if !clientExists || !ready then false
  else if pageClosed then false
  else if getStateThrows then false
  else stateStr == "CONNECTED"

/-- Observable record of one run of safeClientOperation: the value
returned or error thrown (none when the loop falls through, which the
source leaves as an undefined return), how often the probe and the
action ran, and the delays of the waits between attempts. -/
structure OpLog (E A : Type) where
  result : Option (Except E A)
  probeCalls : Nat
  actionCalls : Nat
  waits : List Nat
deriving Repr

/-- The loop body of safeClientOperation (source lines 75-95), indexed
by the attempt counter `i` with `fuel` remaining iterations.  Each
iteration probes liveness (`probe i`), throws the not-ready error when
the probe fails, otherwise runs the action; any error on the last
attempt (`i = maxRetries - 1`) propagates, otherwise the loop waits
`2000 * (i + 1)` ms and retries. -/
def safeOpGo {E A : Type} (probe : Nat → Bool) (act : Nat → Except E A) (eNR : E)
    (maxRetries : Nat) : Nat → Nat → OpLog E A
  | 0, _ => { result := none, probeCalls := 0, actionCalls := 0, waits := [] }
  | fuel + 1, i =>
    if i < maxRetries then
      if probe i then
        match act i with
        | Except.ok a =>
          { result := some (Except.ok a), probeCalls := 1, actionCalls := 1, waits := [] }
        | Except.error e =>
          if i = maxRetries - 1 then
            { result := some (Except.error e), probeCalls := 1, actionCalls := 1, waits := [] }
          else
            { result := (safeOpGo probe act eNR maxRetries fuel (i + 1)).result,
              probeCalls := (safeOpGo probe act eNR maxRetries fuel (i + 1)).probeCalls + 1,
              actionCalls := (safeOpGo probe act eNR maxRetries fuel (i + 1)).actionCalls + 1,
              waits := 2000 * (i + 1) :: (safeOpGo probe act eNR maxRetries fuel (i + 1)).waits }
      else
        if i = maxRetries - 1 then
          { result := some (Except.error eNR), probeCalls := 1, actionCalls := 0, waits := [] }
        else
          { result := (safeOpGo probe act eNR maxRetries fuel (i + 1)).result,
            probeCalls := (safeOpGo probe act eNR maxRetries fuel (i + 1)).probeCalls + 1,
            actionCalls := (safeOpGo probe act eNR maxRetries fuel (i + 1)).actionCalls,
            waits := 2000 * (i + 1) :: (safeOpGo probe act eNR maxRetries fuel (i + 1)).waits }
    else { result := none, probeCalls := 0, actionCalls := 0, waits := [] }

/-- safeClientOperation (source lines 75-95, default maxRetries 3): the
loop runs attempts 0, 1, ..., maxRetries - 1.  The probe outcome and
action outcome at each attempt are inputs because they depend on the
opaque client. -/
def safeClientOperation {E A : Type} (probe : Nat → Bool) (act : Nat → Except E A) (eNR : E)
    (maxRetries : Nat) : OpLog E A :=
  safeOpGo probe act eNR maxRetries maxRetries 0

/-- The waits produced when every attempt from index `i` on fails for
`n` further non-final attempts: 2000*(i+1), 2000*(i+2), ... -/
def expectedWaits : Nat → Nat → List Nat
  | _, 0 => []
  | i, n + 1 => 2000 * (i + 1) :: expectedWaits (i + 1) n

/-- A probe that reports the session live on every attempt. -/
def constTrueProbe : Nat → Bool := fun _ => true

/-- An error message used to instantiate always-failing actions. -/
def constBoomErr : Nat → String := fun _ => "boom"

/-- An action that succeeds immediately with the value 42. -/
def constOkAct : Nat → Except String Nat := fun _ => Except.ok 42

/-- The message of the error thrown inside the send actions when
getNumberId returns null (source lines 335, 406). -/
def notRegisteredMsg : String := "El número no está registrado en WhatsApp"

/-- The message of the error thrown when the liveness probe fails
(source line 80). -/
def notReadyMsg : String := "Cliente no está listo"

/-- An action that throws the not-registered error on every attempt. -/
def constNotRegErr : Nat → String := fun _ => notRegisteredMsg

/-- The catch of the send routes (source lines 354-369): messages
containing the not-registered text map to 400, not-ready or
session-closed texts to 503, anything else to 500. -/
def classifyCatch (msg : String) : Nat :=
  if strIncludes msg "El número no está registrado" then 400
  else if strIncludes msg "Cliente no está listo" || strIncludes msg "Session closed" then 503
  else 500

/- ### Send-text route request model (source lines 311-371) -/

/-- The JSON values a body field can hold. -/
inductive JSVal where
  | str (s : String)
  | num (n : Int)
  | boolv (b : Bool)
  | nullv
  | undef
deriving DecidableEq, Repr

/-- JS truthiness of a body field. -/
def truthy : JSVal → Bool
  | JSVal.str s => !(s == "")
  | JSVal.num n => !(n == 0)
  | JSVal.boolv b => b
  | JSVal.nullv => false
  | JSVal.undef => false

/-- Is the value a string? -/
def isString : JSVal → Bool
  | JSVal.str _ => true
  | _ => false

/-- The message of the TypeError raised when validatePhoneNumber calls
replace on a non-string argument. -/
def typeErrorMsg : String := "phoneNumber.replace is not a function"

/-- validatePhoneNumber applied to an arbitrary JSON value: on a string
it runs the normalizer, on anything else the call to replace throws a
TypeError which propagates to the route's catch. -/
def validatePhoneNumberJS : JSVal → Except String (Option String)
  | JSVal.str s => Except.ok (validatePhoneNumber s)
  | _ => Except.error typeErrorMsg

/-- POST /api/whatsapp/send-text through to its response status: the
missing-field 400, the invalid-number 400, then the guarded send whose
outcome (abstracting safeClientOperation against the opaque client) is
an input; thrown errors go through the catch's message tests. -/
def sendTextStatus (phoneNumber message : JSVal) (sendResult : Except String String) : Nat :=
  if !truthy phoneNumber || !truthy message then 400
  else
    match validatePhoneNumberJS phoneNumber with
    | Except.error e => classifyCatch e
    | Except.ok none => 400
    | Except.ok (some _) =>
      match sendResult with
      | Except.ok _ => 200
      | Except.error e => classifyCatch e

/- ### Route table and 404 catch-all (source lines 256-494) -/

/-- HTTP methods used by the service. -/
inductive HMethod where
  | get
  | post
deriving DecidableEq, BEq, Repr

/-- Every route registered on the app, in registration order (source
lines 256, 277, 290, 311, 374, 444, 473). -/
def routesTable : List (HMethod × String) :=
  [ (HMethod.get, "/"),
    (HMethod.get, "/api/whatsapp/status"),
    (HMethod.get, "/api/whatsapp/qr"),
    (HMethod.post, "/api/whatsapp/send-text"),
    (HMethod.post, "/api/whatsapp/send-image"),
    (HMethod.post, "/api/whatsapp/restart"),
    (HMethod.get, "/api/info") ]

/-- Does some registered route match the request? -/
def hasRoute (m : HMethod) (p : String) : Bool :=
  routesTable.any (fun r => r.1 == m && r.2 == p)

/-- The status of the catch-all handler for unmatched requests (source
lines 489-494). -/
def notFoundStatus : Nat := 404

/-- Requests matching no route fall through to the catch-all and get
404; matched requests are answered by their handler (none here). -/
def unmatchedStatus (m : HMethod) (p : String) : Option Nat :=
  if hasRoute m p then none else some notFoundStatus

/-- Is the path under the mount point of the API-key middleware
(app.use on the /api prefix, source line 274)? -/
def authRequired (p : String) : Bool :=
  charsStart ("/api".data) p.data

/- ### Delay-sequence predicates -/

/-- Is the list of delays non-decreasing? -/
def delaysNondecreasing : List Nat → Bool
  | [] => true
  | [_] => true
  | a :: b :: rest => Nat.ble a b && delaysNondecreasing (b :: rest)

/-- Is the list of delays strictly increasing? -/
def delaysStrictIncr : List Nat → Bool
  | [] => true
  | [_] => true
  | a :: b :: rest => Nat.blt a b && delaysStrictIncr (b :: rest)

/- ### Helper lemmas -/

/-- A cleaned character list never ends with the domain suffix, because
the suffix's last character is not a digit or plus sign. -/
theorem charsEnd_cleaned_false (s : String) :
    charsEnd (cleanedOf s) cUsSuffix = false := by
  have hrev : cUsSuffix.reverse = ['s', 'u', '.', 'c', '@'] := by decide
  unfold charsEnd
  rw [hrev]
  cases hc : (cleanedOf s).reverse with
  | nil => rfl
  | cons c cs =>
    have hmem : c ∈ cleanedOf s := by
      rw [← List.mem_reverse, hc]
      exact List.mem_cons_self c cs
    have hphone : isPhoneChar c = true := List.of_mem_filter hmem
    have hne : ('s' == c) = false := by
      rw [beq_eq_false_iff_ne]
      intro h
      rw [← h] at hphone
      exact absurd hphone (by decide)
    simp [charsStart, hne]

/-- Filtering the cleaned list again changes nothing. -/
theorem filter_cleanedOf (s : String) :
    (cleanedOf s).filter isPhoneChar = cleanedOf s :=
  List.filter_eq_self.mpr (fun _ ha => List.of_mem_filter ha)

/-- Re-cleaning a normalized result recovers the cleaned list: the
suffix characters are all stripped again. -/
theorem cleanedOf_mk_append (s : String) :
    cleanedOf (String.mk (cleanedOf s ++ cUsSuffix)) = cleanedOf s := by
  have h2 : cUsSuffix.filter isPhoneChar = [] := by decide
  calc cleanedOf (String.mk (cleanedOf s ++ cUsSuffix))
      = (cleanedOf s ++ cUsSuffix).filter isPhoneChar := rfl
    _ = (cleanedOf s).filter isPhoneChar ++ cUsSuffix.filter isPhoneChar :=
        List.filter_append _ _
    _ = cleanedOf s ++ [] := by rw [filter_cleanedOf, h2]
    _ = cleanedOf s := List.append_nil _

/-- The TypeError thrown on a non-string phone number matches none of
the catch's message tests, so the route answers 500. -/
theorem classifyCatch_typeError : classifyCatch typeErrorMsg = 500 := by decide

/- ### C1: restart route -/

/-- C1 counterexample: when a client exists and its destroy throws, the
restart route answers 500, schedules nothing, and leaves
reconnectAttempts at its old value 3 — contradicting the claim that
restart always schedules a fresh attempt and always zeroes the state
even when destroy throws. -/
theorem restart_destroyThrow_counterexample :
    (restartHandler ⟨false, false, "", 3⟩ true true).scheduled = none
    ∧ (restartHandler ⟨false, false, "", 3⟩ true true).state.reconnectAttempts = 3
    ∧ (restartHandler ⟨false, false, "", 3⟩ true true).status = 500 := by
  decide

/-- C1 (amended): the restart route resets all four globals and
schedules re-initialization after 2000 ms with a 200 response exactly
when the destroy step does not throw (or no client exists); when a
client exists and destroy throws, the error propagates to the route's
catch, which answers 500 without resetting state and without scheduling
anything. -/
theorem restart_characterization :
    ∀ (st : SessionState) (clientExists destroyThrows : Bool),
    (¬(clientExists = true ∧ destroyThrows = true) →
      (restartHandler st clientExists destroyThrows).status = 200
      ∧ (restartHandler st clientExists destroyThrows).scheduled = some 2000
      ∧ (restartHandler st clientExists destroyThrows).state =
          { isClientReady := false, isInitializing := false, qrCodeData := "",
            reconnectAttempts := 0 })
    ∧ ((clientExists = true ∧ destroyThrows = true) →
      (restartHandler st clientExists destroyThrows).status = 500
      ∧ (restartHandler st clientExists destroyThrows).scheduled = none
      ∧ (restartHandler st clientExists destroyThrows).state = st) := by
  intro st ce dt
  constructor
  · intro h
    have hcd : (ce && dt) = false := by
      cases ce <;> cases dt <;> simp_all
    simp [restartHandler, hcd]
  · rintro ⟨hc, hd⟩
    subst hc; subst hd
    simp [restartHandler]

/-- Witness for restart_characterization at a concrete throwing destroy. -/
theorem restart_characterization_witness :
    (restartHandler ⟨true, false, "qr", 2⟩ true true).status = 500
    ∧ (restartHandler ⟨true, false, "qr", 2⟩ true true).scheduled = none
    ∧ (restartHandler ⟨true, false, "qr", 2⟩ true true).state = ⟨true, false, "qr", 2⟩ :=
  (restart_characterization ⟨true, false, "qr", 2⟩ true true).2 ⟨rfl, rfl⟩

/- ### C5: catch branch of the initializer -/

/-- C5 counterexample: at reconnectAttempts = 0 the catch branch of the
initializer schedules its retry after a fixed 10000 ms, while the
claimed backoff formula gives min(5000 * 2^(1-1), 30000) = 5000. -/
theorem startCatch_fixed_delay_counterexample :
    (step initialState Event.startCatch).2 = some 10000
    ∧ (step initialState Event.startCatch).1.reconnectAttempts = 1
    ∧ min (5000 * 2 ^ (1 - 1)) 30000 = 5000
    ∧ (10000 : Nat) ≠ 5000 := by
  decide

/-- C5 (amended): a construction error inside the initializer is caught
(the transition is total), clears both flags, and schedules a retry
after a fixed 10000 ms — not the exponential backoff formula — if and
only if reconnectAttempts < MAX_RECONNECT_ATTEMPTS, incrementing the
counter in that case and stopping otherwise. -/
theorem startCatch_characterization :
    ∀ st : SessionState,
    (stepState st Event.startCatch).isClientReady = false
    ∧ (stepState st Event.startCatch).isInitializing = false
    ∧ (step st Event.startCatch).2 =
        (if st.reconnectAttempts < MAX_RECONNECT_ATTEMPTS then some 10000 else none)
    ∧ (stepState st Event.startCatch).reconnectAttempts =
        (if st.reconnectAttempts < MAX_RECONNECT_ATTEMPTS then st.reconnectAttempts + 1
         else st.reconnectAttempts) := by
  intro st
  by_cases h : st.reconnectAttempts < MAX_RECONNECT_ATTEMPTS <;>
    simp [stepState, step, h]

/- ### C6: phone-number normalizer -/

/-- C6 counterexample: the source keeps every plus sign, not only a
leading one.  A string of ten plus signs is accepted (the claim's
stripping leaves length 1, demanding null), and an inner plus sign
survives into the result where the claim's algorithm would drop it. -/
theorem validatePhone_plus_counterexample :
    validatePhoneNumber "++++++++++" = some "++++++++++@c.us"
    ∧ normalizeSpec "++++++++++" = none
    ∧ validatePhoneNumber "1+234567890" = some "1+234567890@c.us"
    ∧ normalizeSpec "1+234567890" = some "1234567890@c.us" := by
  decide

/-- C6 (amended): validatePhoneNumber strips every character except
digits and plus signs (all of them, not only a leading one), returns
none exactly when the stripped length is outside [10,15], and otherwise
returns the stripped string with the domain suffix appended exactly once
(the stripped part contains no @); re-feeding a returned value yields
the same value. -/
theorem validatePhone_characterization :
    ∀ s : String,
    (validatePhoneNumber s = none ↔
      ((cleanedOf s).length < 10 ∨ (cleanedOf s).length > 15))
    ∧ (∀ r, validatePhoneNumber s = some r →
        r = String.mk (cleanedOf s ++ cUsSuffix)
        ∧ '@' ∉ cleanedOf s
        ∧ validatePhoneNumber r = some r) := by
  intro s
  have hend := charsEnd_cleaned_false s
  constructor
  · unfold validatePhoneNumber
    rw [hend]
    split
    · simp_all
    · simp_all
  · intro r hr
    unfold validatePhoneNumber at hr
    rw [hend] at hr
    split at hr
    · exact absurd hr (by simp)
    · rename_i hlen
      have hreq : r = String.mk (cleanedOf s ++ cUsSuffix) := by
        simpa using hr.symm
      refine ⟨hreq, ?_, ?_⟩
      · intro hmem
        have := List.of_mem_filter hmem
        exact absurd this (by decide)
      · rw [hreq]
        unfold validatePhoneNumber
        rw [cleanedOf_mk_append, hend]
        split
        · exact absurd (by assumption) hlen
        · rfl

/-- Witness for validatePhone_characterization at the spec's own
example input. -/
theorem validatePhone_characterization_witness :
    "+12345678901@c.us" = String.mk (cleanedOf "+1 (234) 567-8901" ++ cUsSuffix)
    ∧ '@' ∉ cleanedOf "+1 (234) 567-8901"
    ∧ validatePhoneNumber "+12345678901@c.us" = some "+12345678901@c.us" :=
  (validatePhone_characterization "+1 (234) 567-8901").2 "+12345678901@c.us" (by decide)

/- ### C9: health endpoint -/

/-- C9 counterexample: no route named /health is registered, so a GET
to /health falls through to the catch-all 404 and cannot answer 200. -/
theorem health_404_counterexample :
    hasRoute HMethod.get "/health" = false
    ∧ unmatchedStatus HMethod.get "/health" = some 404
    ∧ unmatchedStatus HMethod.get "/health" ≠ some 200 := by
  decide

/-- C9 (amended): for either method, /health matches no registered
route and is answered 404 by the catch-all; it is outside the /api
mount of the API-key middleware, so no shared-secret check applies. -/
theorem health_route_characterization :
    ∀ m : HMethod,
    hasRoute m "/health" = false
    ∧ unmatchedStatus m "/health" = some 404
    ∧ authRequired "/health" = false := by
  intro m
  cases m <;> decide

/- ### C10: non-string phone number -/

/-- C10: whenever the send-text body carries a truthy non-string
phoneNumber and a truthy message, the replace call inside
validatePhoneNumber throws a TypeError whose message matches none of
the catch's tests, so the route answers 500 regardless of the send
outcome. -/
theorem sendText_nonstring_500 :
    ∀ (pn msg : JSVal) (sendResult : Except String String),
    isString pn = false → truthy pn = true → truthy msg = true →
    sendTextStatus pn msg sendResult = 500 := by
  intro pn msg sr hs hp hm
  cases pn with
  | str s => simp [isString] at hs
  | num n => simp [sendTextStatus, validatePhoneNumberJS, hp, hm, classifyCatch_typeError]
  | boolv b => simp [sendTextStatus, validatePhoneNumberJS, hp, hm, classifyCatch_typeError]
  | nullv => simp [truthy] at hp
  | undef => simp [truthy] at hp

/-- Witness for sendText_nonstring_500 at a numeric phone number. -/
theorem sendText_nonstring_500_witness :
    sendTextStatus (JSVal.num 1234567890) (JSVal.str "hi") (Except.ok "mid") = 500 :=
  sendText_nonstring_500 (JSVal.num 1234567890) (JSVal.str "hi") (Except.ok "mid")
    rfl (by decide) (by decide)

/- ### C3: flags never both true -/

/-- C3 counterexample: under arbitrary interleaving of the listed
events, a ready event that lands between a disconnect and the firing of
its scheduled re-initialization leaves isClientReady true when the
initializer entry sets isInitializing, so both flags are true at once. -/
theorem flags_both_true_counterexample :
    (runEvents initialState
      [Event.startEntry, Event.ready, Event.disconnected, Event.ready,
       Event.startEntry]).1.isClientReady = true
    ∧ (runEvents initialState
      [Event.startEntry, Event.ready, Event.disconnected, Event.ready,
       Event.startEntry]).1.isInitializing = true := by
  decide

/-- C3 (amended): in every state reachable when each initializer entry
happens while isClientReady is false (no ready event intervenes between
the scheduling step, which clears the flag, and the entry), the flags
isClientReady and isInitializing are never simultaneously true. -/
theorem flags_invariant_guarded :
    ∀ st : SessionState, ReachGuarded st →
    ¬(st.isClientReady = true ∧ st.isInitializing = true) := by
  intro st h
  induction h with
  | init => simp [initialState]
  | next st e hr hguard ih =>
    cases e with
    | startEntry =>
      by_cases hi : st.isInitializing
      · simpa [stepState, step, hi] using ih
      · have hready : st.isClientReady = false := hguard rfl
        simp [stepState, step, hi, hready]
    | qr code => simp [stepState, step]
    | authenticated => simpa [stepState, step] using ih
    | authFailure => simp [stepState, step]
    | ready => simp [stepState, step]
    | disconnected =>
      by_cases ha : st.reconnectAttempts < MAX_RECONNECT_ATTEMPTS <;>
        simp [stepState, step, ha]
    | startCatch =>
      by_cases ha : st.reconnectAttempts < MAX_RECONNECT_ATTEMPTS <;>
        simp [stepState, step, ha]
    | restartOk => simp [stepState, step]

/-- Witness for flags_invariant_guarded one guarded step from the
initial state. -/
theorem flags_invariant_guarded_witness :
    ¬((stepState initialState Event.startEntry).isClientReady = true
      ∧ (stepState initialState Event.startEntry).isInitializing = true) :=
  flags_invariant_guarded _
    (ReachGuarded.next initialState Event.startEntry ReachGuarded.init (fun _ => rfl))

/- ### C4: backoff delays over consecutive disconnects -/

/-- C4 counterexample: five consecutive disconnects from
reconnectAttempts = 0 schedule the delays 5000, 10000, 20000, 30000,
30000 — the cap makes the fourth and fifth equal, so the sequence is
not strictly increasing as the claim states. -/
theorem backoff_not_strictly_increasing :
    (runEvents initialState (List.replicate 5 Event.disconnected)).2 =
      [5000, 10000, 20000, 30000, 30000]
    ∧ delaysStrictIncr
        ((runEvents initialState (List.replicate 5 Event.disconnected)).2) = false := by
  decide

/-- C4 (amended): starting from reconnectAttempts = 0, six consecutive
disconnected events with no intervening ready or authenticated event
schedule exactly five reconnect attempts, whose delays follow
min(5000 * 2^(attempts-1), 30000) — 5000, 10000, 20000, 30000, 30000, a
non-decreasing sequence that increases strictly until the 30000 cap —
and the sixth disconnect schedules nothing. -/
theorem backoff_delays_characterization :
    ∀ st : SessionState, st.reconnectAttempts = 0 →
    (runEvents st (List.replicate 6 Event.disconnected)).2 =
      [5000, 10000, 20000, 30000, 30000]
    ∧ ([5000, 10000, 20000, 30000, 30000] : List Nat) =
        (List.range 5).map (fun k => min (5000 * 2 ^ k) 30000)
    ∧ delaysNondecreasing ([5000, 10000, 20000, 30000, 30000] : List Nat) = true
    ∧ (step (runEvents st (List.replicate 5 Event.disconnected)).1 Event.disconnected).2 =
        none := by
  intro st h
  obtain ⟨r, ii, q, a⟩ := st
  have ha : a = 0 := h
  subst ha
  have s0 : step ⟨r, ii, q, 0⟩ Event.disconnected = (⟨false, false, q, 1⟩, some 5000) := by
    simp [step, MAX_RECONNECT_ATTEMPTS, Nat.min_def]
  have s1 : step ⟨false, false, q, 1⟩ Event.disconnected
      = (⟨false, false, q, 2⟩, some 10000) := by
    simp [step, MAX_RECONNECT_ATTEMPTS, Nat.min_def]
  have s2 : step ⟨false, false, q, 2⟩ Event.disconnected
      = (⟨false, false, q, 3⟩, some 20000) := by
    simp [step, MAX_RECONNECT_ATTEMPTS, Nat.min_def]
  have s3 : step ⟨false, false, q, 3⟩ Event.disconnected
      = (⟨false, false, q, 4⟩, some 30000) := by
    simp [step, MAX_RECONNECT_ATTEMPTS, Nat.min_def]
  have s4 : step ⟨false, false, q, 4⟩ Event.disconnected
      = (⟨false, false, q, 5⟩, some 30000) := by
    simp [step, MAX_RECONNECT_ATTEMPTS, Nat.min_def]
  have s5 : step ⟨false, false, q, 5⟩ Event.disconnected
      = (⟨false, false, q, 5⟩, none) := by
    simp [step, MAX_RECONNECT_ATTEMPTS]
  have h5 : (runEvents ⟨r, ii, q, 0⟩
      [Event.disconnected, Event.disconnected, Event.disconnected, Event.disconnected,
       Event.disconnected]).1 = ⟨false, false, q, 5⟩ := by
    simp only [runEvents, s0, s1, s2, s3, s4]
  refine ⟨?_, by decide, by decide, ?_⟩
  · show (runEvents ⟨r, ii, q, 0⟩
      [Event.disconnected, Event.disconnected, Event.disconnected, Event.disconnected,
       Event.disconnected, Event.disconnected]).2 = [5000, 10000, 20000, 30000, 30000]
    simp only [runEvents, s0, s1, s2, s3, s4, s5, Option.toList]
    rfl
  · show (step (runEvents ⟨r, ii, q, 0⟩
      [Event.disconnected, Event.disconnected, Event.disconnected, Event.disconnected,
       Event.disconnected]).1 Event.disconnected).2 = none
    rw [h5, s5]

/-- Witness for backoff_delays_characterization at the initial state. -/
theorem backoff_delays_characterization_witness :
    (runEvents initialState (List.replicate 6 Event.disconnected)).2 =
      [5000, 10000, 20000, 30000, 30000]
    ∧ ([5000, 10000, 20000, 30000, 30000] : List Nat) =
        (List.range 5).map (fun k => min (5000 * 2 ^ k) 30000)
    ∧ delaysNondecreasing ([5000, 10000, 20000, 30000, 30000] : List Nat) = true
    ∧ (step (runEvents initialState (List.replicate 5 Event.disconnected)).1
        Event.disconnected).2 = none :=
  backoff_delays_characterization initialState rfl

/- ### Retry-wrapper lemmas -/

/-- expectedWaits as a map over attempt indices. -/
theorem expectedWaits_eq_map : ∀ (n i : Nat),
    expectedWaits i n = (List.range n).map (fun k => 2000 * (i + k + 1)) := by
  intro n
  induction n with
  | zero => intro i; simp [expectedWaits]
  | succ m ihm =>
    intro i
    rw [List.range_succ_eq_map, List.map_cons, List.map_map]
    show 2000 * (i + 1) :: expectedWaits (i + 1) m
        = 2000 * (i + 0 + 1)
          :: List.map ((fun k => 2000 * (i + k + 1)) ∘ Nat.succ) (List.range m)
    rw [ihm (i + 1)]
    have hfun : ((fun k => 2000 * (i + k + 1)) ∘ Nat.succ)
        = (fun k => 2000 * (i + 1 + k + 1)) := by
      funext k
      simp only [Function.comp]
      omega
    rw [hfun]

/-- expectedWaits starting at attempt 0. -/
theorem expectedWaits_zero_eq (n : Nat) :
    expectedWaits 0 n = (List.range n).map (fun k => 2000 * (k + 1)) := by
  rw [expectedWaits_eq_map n 0]
  congr 1
  funext k
  omega

/-- Main loop lemma: when the action throws on every invocation, every
iteration of safeOpGo fails, so the probe runs once per remaining
attempt, the action at most once per attempt (exactly once per attempt
when the probe always reports live), a wait of 2000*(i+1) follows every
non-final attempt i, and the error of the final attempt is returned. -/
theorem safeOpGo_allFail {E A : Type} (probe : Nat → Bool) (act : Nat → Except E A)
    (actErr : Nat → E) (eNR : E) (maxRetries : Nat)
    (hact : ∀ j, act j = Except.error (actErr j)) :
    ∀ fuel i, 1 ≤ fuel → i + fuel = maxRetries →
    (safeOpGo probe act eNR maxRetries fuel i).probeCalls = fuel
    ∧ (safeOpGo probe act eNR maxRetries fuel i).actionCalls ≤ fuel
    ∧ ((∀ j, probe j = true) → (safeOpGo probe act eNR maxRetries fuel i).actionCalls = fuel)
    ∧ (safeOpGo probe act eNR maxRetries fuel i).waits = expectedWaits i (fuel - 1)
    ∧ (safeOpGo probe act eNR maxRetries fuel i).result
        = some (Except.error (if probe (maxRetries - 1) then actErr (maxRetries - 1) else eNR)) := by
  intro fuel
  induction fuel with
  | zero => intro i h1 _; exact absurd h1 (by decide)
  | succ f ih =>
    intro i h1 h2
    have hi : i < maxRetries := by omega
    by_cases hf : f = 0
    · subst hf
      have hlast : i = maxRetries - 1 := by omega
      by_cases hp : probe i
      · have hu : safeOpGo probe act eNR maxRetries 1 i
            = { result := some (Except.error (actErr i)), probeCalls := 1,
                actionCalls := 1, waits := [] } := by
          rw [safeOpGo, if_pos hi, if_pos hp, hact i]
          dsimp only
          rw [if_pos hlast]
        rw [hu]
        refine ⟨rfl, Nat.le_refl 1, fun _ => rfl, rfl, ?_⟩
        rw [← hlast, if_pos hp]
      · have hu : safeOpGo probe act eNR maxRetries 1 i
            = { result := some (Except.error eNR), probeCalls := 1,
                actionCalls := 0, waits := [] } := by
          rw [safeOpGo, if_pos hi, if_neg hp, if_pos hlast]
        rw [hu]
        refine ⟨rfl, Nat.zero_le _, fun hall => absurd (hall i) hp, rfl, ?_⟩
        rw [← hlast, if_neg hp]
    · have hf1 : 1 ≤ f := Nat.one_le_iff_ne_zero.mpr hf
      have hne : i ≠ maxRetries - 1 := by omega
      obtain ⟨ih1, ih2, ih3, ih4, ih5⟩ := ih (i + 1) hf1 (by omega)
      obtain ⟨f', rfl⟩ : ∃ f', f = f' + 1 := ⟨f - 1, by omega⟩
      by_cases hp : probe i
      · have hu : safeOpGo probe act eNR maxRetries (f' + 1 + 1) i
            = { result := (safeOpGo probe act eNR maxRetries (f' + 1) (i + 1)).result,
                probeCalls := (safeOpGo probe act eNR maxRetries (f' + 1) (i + 1)).probeCalls + 1,
                actionCalls := (safeOpGo probe act eNR maxRetries (f' + 1) (i + 1)).actionCalls + 1,
                waits := 2000 * (i + 1)
                  :: (safeOpGo probe act eNR maxRetries (f' + 1) (i + 1)).waits } := by
          rw [safeOpGo, if_pos hi, if_pos hp, hact i]
          dsimp only
          rw [if_neg hne]
        rw [hu]
        refine ⟨?_, ?_, ?_, ?_, ih5⟩
        · show (safeOpGo probe act eNR maxRetries (f' + 1) (i + 1)).probeCalls + 1 = f' + 1 + 1
          rw [ih1]
        · show (safeOpGo probe act eNR maxRetries (f' + 1) (i + 1)).actionCalls + 1 ≤ f' + 1 + 1
          exact Nat.succ_le_succ ih2
        · intro hall
          show (safeOpGo probe act eNR maxRetries (f' + 1) (i + 1)).actionCalls + 1 = f' + 1 + 1
          rw [ih3 hall]
        · show 2000 * (i + 1) :: (safeOpGo probe act eNR maxRetries (f' + 1) (i + 1)).waits
            = expectedWaits i (f' + 1 + 1 - 1)
          rw [ih4]
          rfl
      · have hu : safeOpGo probe act eNR maxRetries (f' + 1 + 1) i
            = { result := (safeOpGo probe act eNR maxRetries (f' + 1) (i + 1)).result,
                probeCalls := (safeOpGo probe act eNR maxRetries (f' + 1) (i + 1)).probeCalls + 1,
                actionCalls := (safeOpGo probe act eNR maxRetries (f' + 1) (i + 1)).actionCalls,
                waits := 2000 * (i + 1)
                  :: (safeOpGo probe act eNR maxRetries (f' + 1) (i + 1)).waits } := by
          rw [safeOpGo, if_pos hi, if_neg hp, if_neg hne]
        rw [hu]
        refine ⟨?_, ?_, fun hall => absurd (hall i) hp, ?_, ih5⟩
        · show (safeOpGo probe act eNR maxRetries (f' + 1) (i + 1)).probeCalls + 1 = f' + 1 + 1
          rw [ih1]
        · show (safeOpGo probe act eNR maxRetries (f' + 1) (i + 1)).actionCalls ≤ f' + 1 + 1
          exact Nat.le_succ_of_le ih2
        · show 2000 * (i + 1) :: (safeOpGo probe act eNR maxRetries (f' + 1) (i + 1)).waits
            = expectedWaits i (f' + 1 + 1 - 1)
          rw [ih4]
          rfl

/-- Main loop lemma: a success can only be produced by the branch in
which the probe reported live on the same attempt and the action then
returned ok. -/
theorem safeOpGo_ok {E A : Type} (probe : Nat → Bool) (act : Nat → Except E A) (eNR : E)
    (maxRetries : Nat) :
    ∀ fuel i a, (safeOpGo probe act eNR maxRetries fuel i).result = some (Except.ok a) →
    ∃ j, i ≤ j ∧ j < maxRetries ∧ probe j = true ∧ act j = Except.ok a := by
  intro fuel
  induction fuel with
  | zero => intro i a h; exact absurd h (by simp [safeOpGo])
  | succ f ih =>
    intro i a h
    by_cases hi : i < maxRetries
    · by_cases hp : probe i
      · cases hact : act i with
        | ok a2 =>
          have hu : safeOpGo probe act eNR maxRetries (f + 1) i
              = { result := some (Except.ok a2), probeCalls := 1,
                  actionCalls := 1, waits := [] } := by
            rw [safeOpGo, if_pos hi, if_pos hp, hact]
          rw [hu] at h
          have ha2 : a2 = a := by simpa using h
          exact ⟨i, Nat.le_refl i, hi, hp, by rw [hact, ha2]⟩
        | error e =>
          by_cases hl : i = maxRetries - 1
          · have hu : safeOpGo probe act eNR maxRetries (f + 1) i
                = { result := some (Except.error e), probeCalls := 1,
                    actionCalls := 1, waits := [] } := by
              rw [safeOpGo, if_pos hi, if_pos hp, hact]
              dsimp only
              rw [if_pos hl]
            rw [hu] at h
            exact absurd h (by simp)
          · have hu : safeOpGo probe act eNR maxRetries (f + 1) i
                = { result := (safeOpGo probe act eNR maxRetries f (i + 1)).result,
                    probeCalls := (safeOpGo probe act eNR maxRetries f (i + 1)).probeCalls + 1,
                    actionCalls := (safeOpGo probe act eNR maxRetries f (i + 1)).actionCalls + 1,
                    waits := 2000 * (i + 1)
                      :: (safeOpGo probe act eNR maxRetries f (i + 1)).waits } := by
              rw [safeOpGo, if_pos hi, if_pos hp, hact]
              dsimp only
              rw [if_neg hl]
            rw [hu] at h
            obtain ⟨j, hj1, hj2, hj3, hj4⟩ := ih (i + 1) a h
            exact ⟨j, by omega, hj2, hj3, hj4⟩
      · by_cases hl : i = maxRetries - 1
        · have hu : safeOpGo probe act eNR maxRetries (f + 1) i
              = { result := some (Except.error eNR), probeCalls := 1,
                  actionCalls := 0, waits := [] } := by
            rw [safeOpGo, if_pos hi, if_neg hp, if_pos hl]
          rw [hu] at h
          exact absurd h (by simp)
        · have hu : safeOpGo probe act eNR maxRetries (f + 1) i
              = { result := (safeOpGo probe act eNR maxRetries f (i + 1)).result,
                  probeCalls := (safeOpGo probe act eNR maxRetries f (i + 1)).probeCalls + 1,
                  actionCalls := (safeOpGo probe act eNR maxRetries f (i + 1)).actionCalls,
                  waits := 2000 * (i + 1)
                    :: (safeOpGo probe act eNR maxRetries f (i + 1)).waits } := by
            rw [safeOpGo, if_pos hi, if_neg hp, if_neg hl]
          rw [hu] at h
          obtain ⟨j, hj1, hj2, hj3, hj4⟩ := ih (i + 1) a h
          exact ⟨j, by omega, hj2, hj3, hj4⟩
    · have hu : safeOpGo probe act eNR maxRetries (f + 1) i
          = { result := none, probeCalls := 0, actionCalls := 0, waits := [] } := by
        rw [safeOpGo, if_neg hi]
      rw [hu] at h
      exact absurd h (by simp)

/- ### C7: retry bounds when the action always throws -/

/-- C7: for every action that throws on every invocation and every
maxRetries ≥ 1, safeClientOperation calls the liveness probe at most
maxRetries times and the action at most maxRetries times, waits
2000*(i+1) ms after each non-final attempt i, and propagates the error
of the final attempt (the action's error when the last probe reported
live, the not-ready error otherwise). -/
theorem safeOp_allFail_bounds {E A : Type} (probe : Nat → Bool) (act : Nat → Except E A)
    (actErr : Nat → E) (eNR : E) (maxRetries : Nat)
    (hact : ∀ j, act j = Except.error (actErr j)) (hm : 1 ≤ maxRetries) :
    (safeClientOperation probe act eNR maxRetries).probeCalls ≤ maxRetries
    ∧ (safeClientOperation probe act eNR maxRetries).actionCalls ≤ maxRetries
    ∧ (safeClientOperation probe act eNR maxRetries).waits
        = (List.range (maxRetries - 1)).map (fun k => 2000 * (k + 1))
    ∧ (safeClientOperation probe act eNR maxRetries).result
        = some (Except.error (if probe (maxRetries - 1) then actErr (maxRetries - 1) else eNR)) := by
  obtain ⟨h1, h2, _, h4, h5⟩ :=
    safeOpGo_allFail probe act actErr eNR maxRetries hact maxRetries 0 hm (by omega)
  exact ⟨Nat.le_of_eq h1, h2, h4.trans (expectedWaits_zero_eq _), h5⟩

/-- Witness for safeOp_allFail_bounds with a live probe, an action that
always throws, and maxRetries = 2. -/
theorem safeOp_allFail_bounds_witness :
    (safeClientOperation constTrueProbe
        (fun j => (Except.error (constBoomErr j) : Except String String)) "nr" 2).probeCalls ≤ 2
    ∧ (safeClientOperation constTrueProbe
        (fun j => (Except.error (constBoomErr j) : Except String String)) "nr" 2).actionCalls ≤ 2
    ∧ (safeClientOperation constTrueProbe
        (fun j => (Except.error (constBoomErr j) : Except String String)) "nr" 2).waits
        = (List.range (2 - 1)).map (fun k => 2000 * (k + 1))
    ∧ (safeClientOperation constTrueProbe
        (fun j => (Except.error (constBoomErr j) : Except String String)) "nr" 2).result
        = some (Except.error (if constTrueProbe (2 - 1) then constBoomErr (2 - 1) else "nr")) :=
  safeOp_allFail_bounds constTrueProbe
    (fun j => (Except.error (constBoomErr j) : Except String String)) constBoomErr "nr" 2
    (fun _ => rfl) (by decide)

/- ### C8: success implies a live probe on the same attempt -/

/-- C8: whenever safeClientOperation returns a success result, there is
an attempt on which the liveness probe returned true and the action,
invoked immediately after on that same attempt, returned that result;
callers never observe a success produced against a non-live probe. -/
theorem safeOp_success_probed {E A : Type} (probe : Nat → Bool) (act : Nat → Except E A)
    (eNR : E) (maxRetries : Nat) (a : A)
    (h : (safeClientOperation probe act eNR maxRetries).result = some (Except.ok a)) :
    ∃ i, i < maxRetries ∧ probe i = true ∧ act i = Except.ok a := by
  obtain ⟨j, _, hj2, hj3, hj4⟩ := safeOpGo_ok probe act eNR maxRetries maxRetries 0 a h
  exact ⟨j, hj2, hj3, hj4⟩

/-- Witness for safeOp_success_probed on an immediately succeeding
action. -/
theorem safeOp_success_probed_witness :
    ∃ i, i < 3 ∧ constTrueProbe i = true ∧ constOkAct i = Except.ok 42 :=
  safeOp_success_probed constTrueProbe constOkAct "nr" 3 42 (by rfl)

/- ### C2: not-registered recipient -/

/-- C2 counterexample: with a live session and a recipient whose lookup
always reports not-registered, safeClientOperation at its default
maxRetries = 3 invokes the action three times with backoff waits of
2000 and 4000 ms in between — not a single invocation with no waits as
the claim states — before the error reaches the route (which does map
it to 400). -/
theorem notRegistered_retry_counterexample :
    (safeClientOperation constTrueProbe
        (fun _ : Nat => (Except.error notRegisteredMsg : Except String Unit))
        notReadyMsg 3).actionCalls = 3
    ∧ (safeClientOperation constTrueProbe
        (fun _ : Nat => (Except.error notRegisteredMsg : Except String Unit))
        notReadyMsg 3).waits = [2000, 4000]
    ∧ (safeClientOperation constTrueProbe
        (fun _ : Nat => (Except.error notRegisteredMsg : Except String Unit))
        notReadyMsg 3).result = some (Except.error notRegisteredMsg)
    ∧ classifyCatch notRegisteredMsg = 400 := by
  refine ⟨rfl, rfl, rfl, by decide⟩

/-- C2 (amended): a not-registered recipient on a live session is
answered 400, but the failing action is not exempt from retrying:
safeClientOperation treats the error like any other, invoking the
action once per attempt (maxRetries times in total) with the usual
backoff waits before the error is surfaced and mapped to 400. -/
theorem notRegistered_retried_status400 :
    ∀ maxRetries : Nat, 1 ≤ maxRetries →
    (safeClientOperation constTrueProbe
        (fun j => (Except.error (constNotRegErr j) : Except String Unit))
        notReadyMsg maxRetries).result = some (Except.error notRegisteredMsg)
    ∧ (safeClientOperation constTrueProbe
        (fun j => (Except.error (constNotRegErr j) : Except String Unit))
        notReadyMsg maxRetries).actionCalls = maxRetries
    ∧ (safeClientOperation constTrueProbe
        (fun j => (Except.error (constNotRegErr j) : Except String Unit))
        notReadyMsg maxRetries).waits
        = (List.range (maxRetries - 1)).map (fun k => 2000 * (k + 1))
    ∧ classifyCatch notRegisteredMsg = 400 := by
  intro m hm
  obtain ⟨h1, h2, h3, h4, h5⟩ :=
    safeOpGo_allFail constTrueProbe
      (fun j => (Except.error (constNotRegErr j) : Except String Unit))
      constNotRegErr notReadyMsg m (fun _ => rfl) m 0 hm (by omega)
  refine ⟨?_, h3 (fun _ => rfl), h4.trans (expectedWaits_zero_eq _), by decide⟩
  have hpt : constTrueProbe (m - 1) = true := rfl
  rw [if_pos hpt] at h5
  exact h5

/-- Witness for notRegistered_retried_status400 at the default
maxRetries = 3. -/
theorem notRegistered_retried_status400_witness :
    (safeClientOperation constTrueProbe
        (fun j => (Except.error (constNotRegErr j) : Except String Unit))
        notReadyMsg 3).result = some (Except.error notRegisteredMsg)
    ∧ (safeClientOperation constTrueProbe
        (fun j => (Except.error (constNotRegErr j) : Except String Unit))
        notReadyMsg 3).actionCalls = 3
    ∧ (safeClientOperation constTrueProbe
        (fun j => (Except.error (constNotRegErr j) : Except String Unit))
        notReadyMsg 3).waits
        = (List.range (3 - 1)).map (fun k => 2000 * (k + 1))
    ∧ classifyCatch notRegisteredMsg = 400 :=
  notRegistered_retried_status400 3 (by decide)
